import Mathlib

/-!
Verification of the multi-indicator facial-tension scoring engine.

The embedding models, over exact rationals:
* the geometry primitives of `Face feature/src/utils.py` (`calculate_angle`)
  and the nasolabial fold-depth projection, with the irrational square root
  and arc-cosine abstracted as function parameters;
* the five region analyzers (`brow_analyzer.py`, `eye_analyzer.py`,
  `grimace_analyzer.py`, `jaw_analyzer.py`, `nasolabial_analyzer.py`):
  their scoring branches, sensitivity clamp, bounded history and
  recency-weighted smoothing, as functions of the scalar measurements the
  Python code derives from the landmark frame;
* the landmark-indexing phase of the analyzers (the only phase that can
  fail, by an out-of-range index);
* the pain/stress/anxiety aggregator of `agents/facial_agent.py`.
-/

namespace PainDetect

/-! ### Geometry primitives (utils.py) -/

/-- A 3D landmark point with exact rational coordinates. -/
structure Pt where
  x : ℚ
  y : ℚ
  z : ℚ
deriving DecidableEq, Repr

def Pt.sub (p q : Pt) : Pt := ⟨p.x - q.x, p.y - q.y, p.z - q.z⟩

def Pt.add (p q : Pt) : Pt := ⟨p.x + q.x, p.y + q.y, p.z + q.z⟩

def Pt.smul (c : ℚ) (p : Pt) : Pt := ⟨c * p.x, c * p.y, c * p.z⟩

def Pt.dot (p q : Pt) : ℚ := p.x * q.x + p.y * q.y + p.z * q.z

/-- Squared Euclidean norm; `np.linalg.norm v = sqrt (normSq v)`. -/
def normSq (p : Pt) : ℚ := Pt.dot p p

/-- `np.clip x lo hi` (for non-NaN rational inputs). -/
def clipQ (x lo hi : ℚ) : ℚ := min (max x lo) hi

/-- Embeds `utils.calculate_angle` (utils.py lines 27-46).  `sqrtA` abstracts
the square root inside `np.linalg.norm` (the real square root satisfies
`sqrtA 0 = 0`); `acosDegA` abstracts `np.degrees (np.arccos _)`.  The source
divides `np.dot v1 v2` by `norm v1 * norm v2` with no guard: when either
vector has zero length the division is `0 / 0`, which numpy evaluates to NaN
(no exception), and `np.clip`, `np.arccos`, `np.degrees` all propagate NaN.
The NaN outcome is modelled as `none`; a finite degree value as `some`. -/
def calculate_angle (sqrtA acosDegA : ℚ → ℚ) (point1 point2 point3 : Pt) : Option ℚ :=
  let vector1 := point1.sub point2
  let vector2 := point3.sub point2
  let den := sqrtA (normSq vector1) * sqrtA (normSq vector2)
  if den = 0 then none
  else some (acosDegA (clipQ (vector1.dot vector2 / den) (-1) 1))

/-- Embeds `NasolabialAnalyzer._calculate_fold_depth`
(nasolabial_analyzer.py lines 72-103).  `sqrtA` abstracts the square root
inside `np.linalg.norm`.  The zero-length line is explicitly guarded in the
source (`if line_len == 0: return 0`). -/
def calculate_fold_depth (sqrtA : ℚ → ℚ) (fold_point nose_point mouth_point : Pt) : ℚ :=
  let line_vec := mouth_point.sub nose_point
  let point_vec := fold_point.sub nose_point
  let line_len := sqrtA (normSq line_vec)
  if line_len = 0 then 0
  else
    let line_unitvec := Pt.smul (1 / line_len) line_vec
    let projection := point_vec.dot line_unitvec
    let closest_point := nose_point.add (Pt.smul projection line_unitvec)
    sqrtA (normSq (fold_point.sub closest_point))

/-! ### Shared scoring pipeline (identical lines in all five analyzers) -/

/-- `self.history_size = 5` in every analyzer. -/
def historySize : ℕ := 5

/-- `self.history.append(score)` followed by
`if len(self.history) > self.history_size: self.history.pop(0)`. -/
def pushHistory (h : List ℚ) (x : ℚ) : List ℚ :=
  let h' := h ++ [x]
  if historySize < h'.length then h'.tail else h'

/-- `np.linspace 0.5 1.0 n`: `n` evenly spaced values from `1/2` to `1`. -/
def linspace01 (n : ℕ) : List ℚ :=
  (List.range n).map (fun (i : ℕ) => 1/2 + (i : ℚ) * ((1/2) / ((n : ℚ) - 1)))

/-- `np.average xs (weights := ws)`: weighted mean `Σ wᵢxᵢ / Σ wᵢ`. -/
def npAverage (xs ws : List ℚ) : ℚ := (List.zipWith (fun w x => w * x) ws xs).sum / ws.sum

/-- The smoothing step on the post-push history: a linspace-weighted average
when more than one sample is retained, otherwise the raw score itself. -/
def smoothedOf (h : List ℚ) (raw : ℚ) : ℚ :=
  if 1 < h.length then npAverage h (linspace01 h.length) else raw

/-! ### Aggregator (agents/facial_agent.py, `FacialAgent._analyze_pain`) -/

def painScore (brow grimace eye jaw nasolabial : ℚ) : ℚ :=
  (brow * 0.25 + grimace * 0.30 + eye * 0.20 + jaw * 0.20 + nasolabial * 0.05) * 10

def stressScore (eye brow jaw : ℚ) : ℚ :=
  (eye * 0.50 + brow * 0.30 + jaw * 0.20) * 10

def anxietyScore (eye brow jaw grimace : ℚ) : ℚ :=
  (eye * 0.30 + brow * 0.30 + jaw * 0.25 + grimace * 0.15) * 10

/-! ### Brow analyzer (brow_analyzer.py)

Each analyzer is embedded as a function of the scalar measurements that the
Python code derives from the landmark frame (distances via
`calculate_distance`, angles via `calculate_angle`): the scoring branches,
sensitivity clamp, history push and smoothing are translated line by line;
the square root / arc-cosine that produce the measurement values are
abstracted by quantifying over the measurement record, which covers every
value they can take. -/

/-- The measurements `BrowAnalyzer` derives per frame (lines 74-81), and the
exact contents of its baseline fields (lines 49-57). -/
structure BrowMeas where
  distance_left : ℚ
  distance_right : ℚ
  angle : ℚ
deriving DecidableEq, Repr

structure BrowState where
  baseline : Option BrowMeas
  history : List ℚ
deriving DecidableEq, Repr

/-- `BrowAnalyzer.set_baseline` (lines 38-57): stores the measurements of the
given frame; history untouched. -/
def browSetBaseline (st : BrowState) (m : BrowMeas) : BrowState :=
  { st with baseline := some m }

/-- Lines 84-101: the two scoring branches.  The baseline branch is taken iff
`use_baseline` and a baseline is stored (`self.baseline_distance_left is not
None`); otherwise the absolute branch. -/
def browTension (baseline : Option BrowMeas) (useBaseline : Bool) (m : BrowMeas) : ℚ :=
  match baseline, useBaseline with
  | some b, true =>
      let left_change := |m.distance_left - b.distance_left| / b.distance_left
      let right_change := |m.distance_right - b.distance_right| / b.distance_right
      let angle_change := |m.angle - b.angle| / b.angle
      (left_change + right_change + angle_change) / 3
  | _, _ =>
      let angle_factor := 1 - m.angle / 180
      let avg_distance := (m.distance_left + m.distance_right) / 2
      let distance_factor := 1 - min (avg_distance * 10) 1
      angle_factor * 0.6 + distance_factor * 0.4

structure BrowResult where
  tension_score : ℚ
  tension_percentage : ℚ
  smoothed_score : ℚ
  smoothed_percentage : ℚ
  left_distance : ℚ
  right_distance : ℚ
  angle : ℚ
  has_baseline : Bool
deriving DecidableEq, Repr

/-- `BrowAnalyzer.analyze` (lines 59-129): scoring branch, `np.clip (· * 3.5)
0 1`, percentage, history push (capacity 5), linspace-weighted smoothing, and
the returned record (`has_baseline` is `self.baseline_distance_left is not
None`, independent of `use_baseline`). -/
def browAnalyze (st : BrowState) (m : BrowMeas) (useBaseline : Bool) :
    BrowResult × BrowState :=
  let tension_score := clipQ (browTension st.baseline useBaseline m * 3.5) 0 1
  let h' := pushHistory st.history tension_score
  let smoothed_score := smoothedOf h' tension_score
  (⟨tension_score, tension_score * 100, smoothed_score, smoothed_score * 100,
    m.distance_left, m.distance_right, m.angle, st.baseline.isSome⟩,
   { st with history := h' })

/-! ### Eye analyzer (eye_analyzer.py) -/

/-- The measurements `EyeAnalyzer` derives per frame (lines 87-102) and
stores as baseline (lines 50-73). -/
structure EyeMeas where
  left_aperture : ℚ
  right_aperture : ℚ
  left_width : ℚ
  right_width : ℚ
deriving DecidableEq, Repr

structure EyeState where
  baseline : Option EyeMeas
  history : List ℚ
deriving DecidableEq, Repr

def eyeSetBaseline (st : EyeState) (m : EyeMeas) : EyeState :=
  { st with baseline := some m }

/-- Lines 104-132: aspect-ratio computation (`if width > 0 else 0` guard in
the source) and the two scoring branches. -/
def eyeSquint (baseline : Option EyeMeas) (useBaseline : Bool) (m : EyeMeas) : ℚ :=
  match baseline, useBaseline with
  | some b, true =>
      let left_reduction := 1 - m.left_aperture / b.left_aperture
      let right_reduction := 1 - m.right_aperture / b.right_aperture
      let left_width_change := |m.left_width - b.left_width| / b.left_width
      let right_width_change := |m.right_width - b.right_width| / b.right_width
      ((left_reduction + right_reduction) * 0.7 +
        (left_width_change + right_width_change) * 0.3) / 2
  | _, _ =>
      let left_aspect := if 0 < m.left_width then m.left_aperture / m.left_width else 0
      let right_aspect := if 0 < m.right_width then m.right_aperture / m.right_width else 0
      let avg_aspect := (left_aspect + right_aspect) / 2
      let normal := (0.30 : ℚ)
      max 0 (normal - avg_aspect) / normal

structure EyeResult where
  squint_score : ℚ
  squint_percentage : ℚ
  smoothed_score : ℚ
  smoothed_percentage : ℚ
  left_aperture : ℚ
  right_aperture : ℚ
  has_baseline : Bool
deriving DecidableEq, Repr

/-- `EyeAnalyzer.analyze` (lines 75-161): scoring branch, `np.clip (· * 3.5)
0 1`, history push, smoothing, returned record. -/
def eyeAnalyze (st : EyeState) (m : EyeMeas) (useBaseline : Bool) :
    EyeResult × EyeState :=
  let squint_score := clipQ (eyeSquint st.baseline useBaseline m * 3.5) 0 1
  let h' := pushHistory st.history squint_score
  let smoothed_score := smoothedOf h' squint_score
  (⟨squint_score, squint_score * 100, smoothed_score, smoothed_score * 100,
    m.left_aperture, m.right_aperture, st.baseline.isSome⟩,
   { st with history := h' })

/-! ### Grimace analyzer (grimace_analyzer.py) -/

/-- The measurements `GrimaceAnalyzer` derives per frame (lines 80-92);
`corner_depression = max 0 (corner_midpoint_y - center_y)` is derived from y
coordinates only, and only the first three are stored as baseline
(lines 48-62). -/
structure GrimaceMeas where
  corner_distance : ℚ
  vertical_distance : ℚ
  lip_distance : ℚ
  corner_depression : ℚ
deriving DecidableEq, Repr

structure GrimaceState where
  baseline : Option GrimaceMeas
  history : List ℚ
deriving DecidableEq, Repr

def grimaceSetBaseline (st : GrimaceState) (m : GrimaceMeas) : GrimaceState :=
  { st with baseline := some m }

/-- Lines 94-113: the two scoring branches. -/
def grimaceScoreOf (baseline : Option GrimaceMeas) (useBaseline : Bool) (m : GrimaceMeas) : ℚ :=
  match baseline, useBaseline with
  | some b, true =>
      let corner_change := |m.corner_distance - b.corner_distance| / b.corner_distance
      let vertical_change := |m.vertical_distance - b.vertical_distance| / b.vertical_distance
      let lip_change := |m.lip_distance - b.lip_distance| / b.lip_distance
      corner_change * 0.4 + vertical_change * 0.3 + lip_change * 0.3
  | _, _ =>
      let corner_factor := 1 - min (m.corner_distance * 5) 1
      let vertical_factor := 1 - min (m.vertical_distance * 20) 1
      let depression_factor := min (m.corner_depression * 50) 1
      corner_factor * 0.35 + vertical_factor * 0.35 + depression_factor * 0.30

structure GrimaceResult where
  grimace_score : ℚ
  grimace_percentage : ℚ
  smoothed_score : ℚ
  smoothed_percentage : ℚ
  corner_distance : ℚ
  vertical_distance : ℚ
  has_baseline : Bool
deriving DecidableEq, Repr

/-- `GrimaceAnalyzer.analyze` (lines 64-141): scoring branch, `np.clip
(· * 3.0) 0 1`, history push, smoothing, returned record. -/
def grimaceAnalyze (st : GrimaceState) (m : GrimaceMeas) (useBaseline : Bool) :
    GrimaceResult × GrimaceState :=
  let grimace_score := clipQ (grimaceScoreOf st.baseline useBaseline m * 3.0) 0 1
  let h' := pushHistory st.history grimace_score
  let smoothed_score := smoothedOf h' grimace_score
  (⟨grimace_score, grimace_score * 100, smoothed_score, smoothed_score * 100,
    m.corner_distance, m.vertical_distance, st.baseline.isSome⟩,
   { st with history := h' })

/-! ### Jaw analyzer (jaw_analyzer.py) -/

/-- The measurements `JawAnalyzer` derives per frame (lines 77-91) and stores
as baseline (lines 50-64). -/
structure JawMeas where
  left_distance : ℚ
  right_distance : ℚ
  jaw_width : ℚ
  jaw_angle : ℚ
deriving DecidableEq, Repr

structure JawState where
  baseline : Option JawMeas
  history : List ℚ
deriving DecidableEq, Repr

def jawSetBaseline (st : JawState) (m : JawMeas) : JawState :=
  { st with baseline := some m }

/-- Lines 99-126: the two scoring branches. -/
def jawClench (baseline : Option JawMeas) (useBaseline : Bool) (m : JawMeas) : ℚ :=
  match baseline, useBaseline with
  | some b, true =>
      let left_change := |m.left_distance - b.left_distance| / b.left_distance
      let right_change := |m.right_distance - b.right_distance| / b.right_distance
      let width_change := |m.jaw_width - b.jaw_width| / b.jaw_width
      let angle_change := |m.jaw_angle - b.jaw_angle| / b.jaw_angle
      left_change * 0.25 + right_change * 0.25 + width_change * 0.25 + angle_change * 0.25
  | _, _ =>
      let avg_distance := (m.left_distance + m.right_distance) / 2
      let distance_factor := 1 - min (avg_distance * 8) 1
      let width_factor := max 0 (min (m.jaw_width * 3) 1 - 0.5)
      let angle_factor := 1 - m.jaw_angle / 180
      distance_factor * 0.4 + width_factor * 0.3 + angle_factor * 0.3

structure JawResult where
  clench_score : ℚ
  clench_percentage : ℚ
  smoothed_score : ℚ
  smoothed_percentage : ℚ
  jaw_width : ℚ
  jaw_angle : ℚ
  has_baseline : Bool
deriving DecidableEq, Repr

/-- `JawAnalyzer.analyze` (lines 66-155): scoring branch, `np.clip (· * 3.5)
0 1`, history push, smoothing, returned record. -/
def jawAnalyze (st : JawState) (m : JawMeas) (useBaseline : Bool) :
    JawResult × JawState :=
  let clench_score := clipQ (jawClench st.baseline useBaseline m * 3.5) 0 1
  let h' := pushHistory st.history clench_score
  let smoothed_score := smoothedOf h' clench_score
  (⟨clench_score, clench_score * 100, smoothed_score, smoothed_score * 100,
    m.jaw_width, m.jaw_angle, st.baseline.isSome⟩,
   { st with history := h' })

/-! ### Nasolabial analyzer (nasolabial_analyzer.py) -/

/-- The measurements `NasolabialAnalyzer` derives per frame (lines 116-132)
and stores as baseline (lines 46-70). -/
structure NasoMeas where
  left_depth : ℚ
  right_depth : ℚ
  left_angle : ℚ
  right_angle : ℚ
deriving DecidableEq, Repr

structure NasoState where
  baseline : Option NasoMeas
  history : List ℚ
deriving DecidableEq, Repr

def nasoSetBaseline (st : NasoState) (m : NasoMeas) : NasoState :=
  { st with baseline := some m }

/-- Lines 134-157: the two scoring branches. -/
def nasoStrain (baseline : Option NasoMeas) (useBaseline : Bool) (m : NasoMeas) : ℚ :=
  match baseline, useBaseline with
  | some b, true =>
      let left_depth_change := |m.left_depth - b.left_depth| / b.left_depth
      let right_depth_change := |m.right_depth - b.right_depth| / b.right_depth
      let left_angle_change := |m.left_angle - b.left_angle| / b.left_angle
      let right_angle_change := |m.right_angle - b.right_angle| / b.right_angle
      ((left_depth_change + right_depth_change) * 0.6 +
        (left_angle_change + right_angle_change) * 0.4) / 2
  | _, _ =>
      let avg_depth := (m.left_depth + m.right_depth) / 2
      let depth_factor := min (avg_depth * 30) 1
      let avg_angle := (m.left_angle + m.right_angle) / 2
      let angle_factor := 1 - avg_angle / 180
      depth_factor * 0.6 + angle_factor * 0.4

structure NasoResult where
  strain_score : ℚ
  strain_percentage : ℚ
  smoothed_score : ℚ
  smoothed_percentage : ℚ
  left_depth : ℚ
  right_depth : ℚ
  has_baseline : Bool
deriving DecidableEq, Repr

/-- `NasolabialAnalyzer.analyze` (lines 105-186): scoring branch, `np.clip
(· * 2.5) 0 1`, history push, smoothing, returned record. -/
def nasoAnalyze (st : NasoState) (m : NasoMeas) (useBaseline : Bool) :
    NasoResult × NasoState :=
  let strain_score := clipQ (nasoStrain st.baseline useBaseline m * 2.5) 0 1
  let h' := pushHistory st.history strain_score
  let smoothed_score := smoothedOf h' strain_score
  (⟨strain_score, strain_score * 100, smoothed_score, smoothed_score * 100,
    m.left_depth, m.right_depth, st.baseline.isSome⟩,
   { st with history := h' })

/-! ### Landmark-indexing phase

A landmark frame is a list of points; `numpy` indexing `landmarks[i]` raises
`IndexError` exactly when `i ≥ len(landmarks)` (negative indices are never
used here), modelled by `List.get?` returning `none`.  The arithmetic after
the fetch phase cannot raise, so an `analyze`/`set_baseline` call fails
exactly when its fetch phase does.  Indices are the analyzer defaults, which
coincide with `config.LANDMARK_INDICES`. -/

/-- The landmark accesses of `BrowAnalyzer.analyze` (lines 70-80), in source
order: `eyebrow_left = [70, 107]`, `eyebrow_right = [336, 300]`, nose bridge
`168`. -/
def browAnalyzeFetch (lms : List Pt) : Option (Pt × Pt × Pt × Pt × Pt) := do
  let l0 ← lms.get? 70
  let l1 ← lms.get? 107
  let r0 ← lms.get? 336
  let r1 ← lms.get? 300
  let nb ← lms.get? 168
  pure (l0, l1, r0, r1, nb)

/-- The landmark accesses of `JawAnalyzer.set_baseline` (lines 50-64), in
source order: `jaw_left = [234, 93]`, `jaw_right = [454, 323]`, chin `152`,
jaw angles `172` and `397`. -/
def jawSetBaselineFetch (lms : List Pt) : Option (Pt × Pt × Pt × Pt × Pt × Pt × Pt) := do
  let l0 ← lms.get? 234
  let l1 ← lms.get? 93
  let r0 ← lms.get? 454
  let r1 ← lms.get? 323
  let chin ← lms.get? 152
  let la ← lms.get? 172
  let ra ← lms.get? 397
  pure (l0, l1, r0, r1, chin, la, ra)

/-! ### Spec-side definitions (for refinement-style claims) -/

/-- Modelled from the spec: the smoothing weight the spec prescribes for
history position `i` (0 = oldest) in a history of length `n`: weights
increase linearly from `1/2` on the oldest retained sample to `1` on the
newest. -/
def specWeight (n i : ℕ) : ℚ := 1/2 + (i : ℚ) / (2 * ((n : ℚ) - 1))

/-- The relative-change expression used by every baseline-mode division in
the analyzers: `abs (current - baseline) / baseline`, with no epsilon floor
on the denominator (brow_analyzer.py lines 86-88, eye_analyzer.py lines
115-116, grimace_analyzer.py lines 101-103, jaw_analyzer.py lines 106-109,
nasolabial_analyzer.py lines 137-141). -/
def relChange (current baseline : ℚ) : ℚ := |current - baseline| / baseline

/-! ### Helper lemmas: clamp, history and smoothing bounds -/

lemma clipQ01_nonneg (x : ℚ) : 0 ≤ clipQ x 0 1 :=
  le_min (le_max_right x 0) (by norm_num)

lemma clipQ01_le_one (x : ℚ) : clipQ x 0 1 ≤ 1 := min_le_right _ _

lemma mem_pushHistory {h : List ℚ} {x y : ℚ} (hy : y ∈ pushHistory h x) :
    y ∈ h ∨ y = x := by
  by_cases hc : historySize < (h ++ [x]).length <;>
    simp only [pushHistory, hc, if_true, if_false] at hy
  · have := List.mem_of_mem_tail hy
    rcases List.mem_append.1 this with h1 | h2
    · exact Or.inl h1
    · exact Or.inr (List.mem_singleton.1 h2)
  · rcases List.mem_append.1 hy with h1 | h2
    · exact Or.inl h1
    · exact Or.inr (List.mem_singleton.1 h2)

lemma zipWith_mul_sum_nonneg (ws xs : List ℚ) (hw : ∀ w ∈ ws, 0 ≤ w)
    (hx : ∀ x ∈ xs, 0 ≤ x) : 0 ≤ (List.zipWith (fun w x => w * x) ws xs).sum := by
  induction ws generalizing xs with
  | nil => simp
  | cons w ws ih =>
      cases xs with
      | nil => simp
      | cons x xs =>
          simp only [List.zipWith_cons_cons, List.sum_cons]
          have h1 : 0 ≤ w * x :=
            mul_nonneg (hw w (List.mem_cons_self _ _)) (hx x (List.mem_cons_self _ _))
          have h2 := ih xs (fun w hw' => hw w (List.mem_cons_of_mem _ hw'))
            (fun x hx' => hx x (List.mem_cons_of_mem _ hx'))
          linarith

lemma zipWith_mul_sum_le (ws xs : List ℚ) (hw : ∀ w ∈ ws, 0 ≤ w)
    (hx : ∀ x ∈ xs, x ≤ 1) :
    (List.zipWith (fun w x => w * x) ws xs).sum ≤ ws.sum := by
  induction ws generalizing xs with
  | nil => simp
  | cons w ws ih =>
      cases xs with
      | nil =>
          simp only [List.zipWith_nil_right, List.sum_nil]
          exact List.sum_nonneg (fun x hx' => hw x hx')
      | cons x xs =>
          simp only [List.zipWith_cons_cons, List.sum_cons]
          have h1 : w * x ≤ w :=
            mul_le_of_le_one_right (hw w (List.mem_cons_self _ _)) (hx x (List.mem_cons_self _ _))
          have h2 := ih xs (fun w hw' => hw w (List.mem_cons_of_mem _ hw'))
            (fun x hx' => hx x (List.mem_cons_of_mem _ hx'))
          linarith

lemma linspace01_length (n : ℕ) : (linspace01 n).length = n := by
  rw [linspace01, List.length_map, List.length_range]

lemma linspace01_half_le (n : ℕ) : ∀ w ∈ linspace01 n, 1/2 ≤ w := by
  intro w hw
  rw [linspace01, List.mem_map] at hw
  obtain ⟨i, hi, rfl⟩ := hw
  rw [List.mem_range] at hi
  have hn : 1 ≤ n := by omega
  have h1 : (0:ℚ) ≤ (n : ℚ) - 1 := by
    have : (1:ℚ) ≤ (n : ℚ) := by exact_mod_cast hn
    linarith
  have h2 : (0:ℚ) ≤ (i : ℚ) * ((1/2) / ((n : ℚ) - 1)) :=
    mul_nonneg (Nat.cast_nonneg i) (div_nonneg (by norm_num) h1)
  linarith

lemma linspace01_nonneg (n : ℕ) : ∀ w ∈ linspace01 n, 0 ≤ w := by
  intro w hw
  have := linspace01_half_le n w hw
  linarith

lemma linspace01_sum_pos {n : ℕ} (hn : 1 ≤ n) : 0 < (linspace01 n).sum := by
  apply List.sum_pos
  · intro w hw
    have := linspace01_half_le n w hw
    linarith
  · intro hnil
    have := linspace01_length n
    rw [hnil] at this
    simp at this
    omega

lemma smoothedOf_bounds (h : List ℚ) (raw : ℚ)
    (hh : ∀ y ∈ h, 0 ≤ y ∧ y ≤ 1) (hr0 : 0 ≤ raw) (hr1 : raw ≤ 1) :
    0 ≤ smoothedOf h raw ∧ smoothedOf h raw ≤ 1 := by
  unfold smoothedOf
  split
  next hlen =>
    unfold npAverage
    have hws0 := linspace01_nonneg h.length
    have hsum : 0 < (linspace01 h.length).sum := linspace01_sum_pos (by omega)
    constructor
    · exact div_nonneg
        (zipWith_mul_sum_nonneg _ _ hws0 (fun y hy => (hh y hy).1)) (le_of_lt hsum)
    · exact (div_le_one hsum).2 (zipWith_mul_sum_le _ _ hws0 (fun y hy => (hh y hy).2))
  next => exact ⟨hr0, hr1⟩

/-- The shared pipeline of every `analyze`: clamp to `[0,1]`, push onto the
history, smooth — all four returned quantities are bounded whenever the
incoming history entries are. -/
lemma stepBounds (t : ℚ) (hist : List ℚ)
    (hh : ∀ y ∈ hist, 0 ≤ y ∧ y ≤ 1) :
    0 ≤ clipQ t 0 1 ∧ clipQ t 0 1 ≤ 1 ∧
    0 ≤ smoothedOf (pushHistory hist (clipQ t 0 1)) (clipQ t 0 1) ∧
    smoothedOf (pushHistory hist (clipQ t 0 1)) (clipQ t 0 1) ≤ 1 := by
  have h0 := clipQ01_nonneg t
  have h1 := clipQ01_le_one t
  have hmem : ∀ y ∈ pushHistory hist (clipQ t 0 1), 0 ≤ y ∧ y ≤ 1 := by
    intro y hy
    rcases mem_pushHistory hy with hmem | rfl
    · exact hh y hmem
    · exact ⟨h0, h1⟩
  have := smoothedOf_bounds _ _ hmem h0 h1
  exact ⟨h0, h1, this.1, this.2⟩

lemma browAnalyze_score (st : BrowState) (m : BrowMeas) (u : Bool) :
    (browAnalyze st m u).1.tension_score =
      clipQ (browTension st.baseline u m * 3.5) 0 1 := rfl

lemma eyeAnalyze_score (st : EyeState) (m : EyeMeas) (u : Bool) :
    (eyeAnalyze st m u).1.squint_score =
      clipQ (eyeSquint st.baseline u m * 3.5) 0 1 := rfl

lemma grimaceAnalyze_score (st : GrimaceState) (m : GrimaceMeas) (u : Bool) :
    (grimaceAnalyze st m u).1.grimace_score =
      clipQ (grimaceScoreOf st.baseline u m * 3.0) 0 1 := rfl

lemma jawAnalyze_score (st : JawState) (m : JawMeas) (u : Bool) :
    (jawAnalyze st m u).1.clench_score =
      clipQ (jawClench st.baseline u m * 3.5) 0 1 := rfl

lemma nasoAnalyze_score (st : NasoState) (m : NasoMeas) (u : Bool) :
    (nasoAnalyze st m u).1.strain_score =
      clipQ (nasoStrain st.baseline u m * 2.5) 0 1 := rfl

lemma clipQ_zero : clipQ 0 0 1 = 0 := by norm_num [clipQ]

/-! ### Claim C1 -/

/-- **C1.** The aggregator computes
`pain = (brow*0.25 + grimace*0.30 + eye*0.20 + jaw*0.20 + nasolabial*0.05) * 10`,
`stress = (eye*0.50 + brow*0.30 + jaw*0.20) * 10`,
`anxiety = (eye*0.30 + brow*0.30 + jaw*0.25 + grimace*0.15) * 10`;
all-zero inputs give 0, all-one inputs give 10, and for smoothed scores in
[0,1] all three outputs lie in [0,10]. -/
theorem claim_C1 :
    (∀ b g e j n : ℚ,
      painScore b g e j n = (b * 0.25 + g * 0.30 + e * 0.20 + j * 0.20 + n * 0.05) * 10 ∧
      stressScore e b j = (e * 0.50 + b * 0.30 + j * 0.20) * 10 ∧
      anxietyScore e b j g = (e * 0.30 + b * 0.30 + j * 0.25 + g * 0.15) * 10) ∧
    (painScore 0 0 0 0 0 = 0 ∧ stressScore 0 0 0 = 0 ∧ anxietyScore 0 0 0 0 = 0) ∧
    (painScore 1 1 1 1 1 = 10 ∧ stressScore 1 1 1 = 10 ∧ anxietyScore 1 1 1 1 = 10) ∧
    (∀ b g e j n : ℚ, 0 ≤ b → b ≤ 1 → 0 ≤ g → g ≤ 1 → 0 ≤ e → e ≤ 1 →
      0 ≤ j → j ≤ 1 → 0 ≤ n → n ≤ 1 →
      (0 ≤ painScore b g e j n ∧ painScore b g e j n ≤ 10) ∧
      (0 ≤ stressScore e b j ∧ stressScore e b j ≤ 10) ∧
      (0 ≤ anxietyScore e b j g ∧ anxietyScore e b j g ≤ 10)) := by
  refine ⟨fun b g e j n => ⟨rfl, rfl, rfl⟩, ⟨by norm_num [painScore], by norm_num [stressScore],
    by norm_num [anxietyScore]⟩, ⟨by norm_num [painScore], by norm_num [stressScore],
    by norm_num [anxietyScore]⟩, ?_⟩
  intro b g e j n hb0 hb1 hg0 hg1 he0 he1 hj0 hj1 hn0 hn1
  unfold painScore stressScore anxietyScore
  norm_num
  constructor
  · constructor <;> nlinarith
  constructor
  · constructor <;> nlinarith
  · constructor <;> nlinarith

/-- Witness for C1 at concrete smoothed scores `1/2`. -/
theorem claim_C1_witness :
    (0 ≤ painScore (1/2) (1/2) (1/2) (1/2) (1/2) ∧
      painScore (1/2) (1/2) (1/2) (1/2) (1/2) ≤ 10) ∧
    (0 ≤ stressScore (1/2) (1/2) (1/2) ∧ stressScore (1/2) (1/2) (1/2) ≤ 10) ∧
    (0 ≤ anxietyScore (1/2) (1/2) (1/2) (1/2) ∧
      anxietyScore (1/2) (1/2) (1/2) (1/2) ≤ 10) :=
  claim_C1.2.2.2 (1/2) (1/2) (1/2) (1/2) (1/2)
    (by norm_num) (by norm_num) (by norm_num) (by norm_num) (by norm_num)
    (by norm_num) (by norm_num) (by norm_num) (by norm_num) (by norm_num)

/-! ### Claim C2 -/

/-- **C2.** For every analyzer state whose history entries lie in [0,1]
(the invariant maintained by `analyze`, cf. C9) and every measurement record
— covering every valid landmark array, since the measurements are the only
data the scoring reads from the frame — `analyze` returns a raw score and a
smoothed score in [0,1] and percentages in [0,100], for each of the five
analyzers. -/
theorem claim_C2 :
    (∀ (b : Option BrowMeas) (hist : List ℚ) (m : BrowMeas) (u : Bool),
      (∀ y ∈ hist, 0 ≤ y ∧ y ≤ 1) →
      (0 ≤ (browAnalyze ⟨b, hist⟩ m u).1.tension_score ∧
        (browAnalyze ⟨b, hist⟩ m u).1.tension_score ≤ 1) ∧
      (0 ≤ (browAnalyze ⟨b, hist⟩ m u).1.tension_percentage ∧
        (browAnalyze ⟨b, hist⟩ m u).1.tension_percentage ≤ 100) ∧
      (0 ≤ (browAnalyze ⟨b, hist⟩ m u).1.smoothed_score ∧
        (browAnalyze ⟨b, hist⟩ m u).1.smoothed_score ≤ 1) ∧
      (0 ≤ (browAnalyze ⟨b, hist⟩ m u).1.smoothed_percentage ∧
        (browAnalyze ⟨b, hist⟩ m u).1.smoothed_percentage ≤ 100)) ∧
    (∀ (b : Option EyeMeas) (hist : List ℚ) (m : EyeMeas) (u : Bool),
      (∀ y ∈ hist, 0 ≤ y ∧ y ≤ 1) →
      (0 ≤ (eyeAnalyze ⟨b, hist⟩ m u).1.squint_score ∧
        (eyeAnalyze ⟨b, hist⟩ m u).1.squint_score ≤ 1) ∧
      (0 ≤ (eyeAnalyze ⟨b, hist⟩ m u).1.squint_percentage ∧
        (eyeAnalyze ⟨b, hist⟩ m u).1.squint_percentage ≤ 100) ∧
      (0 ≤ (eyeAnalyze ⟨b, hist⟩ m u).1.smoothed_score ∧
        (eyeAnalyze ⟨b, hist⟩ m u).1.smoothed_score ≤ 1) ∧
      (0 ≤ (eyeAnalyze ⟨b, hist⟩ m u).1.smoothed_percentage ∧
        (eyeAnalyze ⟨b, hist⟩ m u).1.smoothed_percentage ≤ 100)) ∧
    (∀ (b : Option GrimaceMeas) (hist : List ℚ) (m : GrimaceMeas) (u : Bool),
      (∀ y ∈ hist, 0 ≤ y ∧ y ≤ 1) →
      (0 ≤ (grimaceAnalyze ⟨b, hist⟩ m u).1.grimace_score ∧
        (grimaceAnalyze ⟨b, hist⟩ m u).1.grimace_score ≤ 1) ∧
      (0 ≤ (grimaceAnalyze ⟨b, hist⟩ m u).1.grimace_percentage ∧
        (grimaceAnalyze ⟨b, hist⟩ m u).1.grimace_percentage ≤ 100) ∧
      (0 ≤ (grimaceAnalyze ⟨b, hist⟩ m u).1.smoothed_score ∧
        (grimaceAnalyze ⟨b, hist⟩ m u).1.smoothed_score ≤ 1) ∧
      (0 ≤ (grimaceAnalyze ⟨b, hist⟩ m u).1.smoothed_percentage ∧
        (grimaceAnalyze ⟨b, hist⟩ m u).1.smoothed_percentage ≤ 100)) ∧
    (∀ (b : Option JawMeas) (hist : List ℚ) (m : JawMeas) (u : Bool),
      (∀ y ∈ hist, 0 ≤ y ∧ y ≤ 1) →
      (0 ≤ (jawAnalyze ⟨b, hist⟩ m u).1.clench_score ∧
        (jawAnalyze ⟨b, hist⟩ m u).1.clench_score ≤ 1) ∧
      (0 ≤ (jawAnalyze ⟨b, hist⟩ m u).1.clench_percentage ∧
        (jawAnalyze ⟨b, hist⟩ m u).1.clench_percentage ≤ 100) ∧
      (0 ≤ (jawAnalyze ⟨b, hist⟩ m u).1.smoothed_score ∧
        (jawAnalyze ⟨b, hist⟩ m u).1.smoothed_score ≤ 1) ∧
      (0 ≤ (jawAnalyze ⟨b, hist⟩ m u).1.smoothed_percentage ∧
        (jawAnalyze ⟨b, hist⟩ m u).1.smoothed_percentage ≤ 100)) ∧
    (∀ (b : Option NasoMeas) (hist : List ℚ) (m : NasoMeas) (u : Bool),
      (∀ y ∈ hist, 0 ≤ y ∧ y ≤ 1) →
      (0 ≤ (nasoAnalyze ⟨b, hist⟩ m u).1.strain_score ∧
        (nasoAnalyze ⟨b, hist⟩ m u).1.strain_score ≤ 1) ∧
      (0 ≤ (nasoAnalyze ⟨b, hist⟩ m u).1.strain_percentage ∧
        (nasoAnalyze ⟨b, hist⟩ m u).1.strain_percentage ≤ 100) ∧
      (0 ≤ (nasoAnalyze ⟨b, hist⟩ m u).1.smoothed_score ∧
        (nasoAnalyze ⟨b, hist⟩ m u).1.smoothed_score ≤ 1) ∧
      (0 ≤ (nasoAnalyze ⟨b, hist⟩ m u).1.smoothed_percentage ∧
        (nasoAnalyze ⟨b, hist⟩ m u).1.smoothed_percentage ≤ 100)) := by
  refine ⟨?_, ?_, ?_, ?_, ?_⟩ <;> intro b hist m u hh
  · obtain ⟨h0, h1, h2, h3⟩ := stepBounds (browTension b u m * 3.5) hist hh
    simp only [browAnalyze]
    exact ⟨⟨h0, h1⟩, ⟨by linarith, by linarith⟩, ⟨h2, h3⟩, ⟨by linarith, by linarith⟩⟩
  · obtain ⟨h0, h1, h2, h3⟩ := stepBounds (eyeSquint b u m * 3.5) hist hh
    simp only [eyeAnalyze]
    exact ⟨⟨h0, h1⟩, ⟨by linarith, by linarith⟩, ⟨h2, h3⟩, ⟨by linarith, by linarith⟩⟩
  · obtain ⟨h0, h1, h2, h3⟩ := stepBounds (grimaceScoreOf b u m * 3.0) hist hh
    simp only [grimaceAnalyze]
    exact ⟨⟨h0, h1⟩, ⟨by linarith, by linarith⟩, ⟨h2, h3⟩, ⟨by linarith, by linarith⟩⟩
  · obtain ⟨h0, h1, h2, h3⟩ := stepBounds (jawClench b u m * 3.5) hist hh
    simp only [jawAnalyze]
    exact ⟨⟨h0, h1⟩, ⟨by linarith, by linarith⟩, ⟨h2, h3⟩, ⟨by linarith, by linarith⟩⟩
  · obtain ⟨h0, h1, h2, h3⟩ := stepBounds (nasoStrain b u m * 2.5) hist hh
    simp only [nasoAnalyze]
    exact ⟨⟨h0, h1⟩, ⟨by linarith, by linarith⟩, ⟨h2, h3⟩, ⟨by linarith, by linarith⟩⟩

/-- Witness for C2: all five analyzers at a fresh state (empty history, no
baseline) on a concrete measurement record. -/
theorem claim_C2_witness :
    ((0 ≤ (browAnalyze ⟨none, []⟩ ⟨1/10, 1/10, 90⟩ true).1.tension_score ∧
      (browAnalyze ⟨none, []⟩ ⟨1/10, 1/10, 90⟩ true).1.tension_score ≤ 1) ∧
     (0 ≤ (browAnalyze ⟨none, []⟩ ⟨1/10, 1/10, 90⟩ true).1.tension_percentage ∧
      (browAnalyze ⟨none, []⟩ ⟨1/10, 1/10, 90⟩ true).1.tension_percentage ≤ 100) ∧
     (0 ≤ (browAnalyze ⟨none, []⟩ ⟨1/10, 1/10, 90⟩ true).1.smoothed_score ∧
      (browAnalyze ⟨none, []⟩ ⟨1/10, 1/10, 90⟩ true).1.smoothed_score ≤ 1) ∧
     (0 ≤ (browAnalyze ⟨none, []⟩ ⟨1/10, 1/10, 90⟩ true).1.smoothed_percentage ∧
      (browAnalyze ⟨none, []⟩ ⟨1/10, 1/10, 90⟩ true).1.smoothed_percentage ≤ 100)) ∧
    (0 ≤ (eyeAnalyze ⟨none, []⟩ ⟨1/50, 1/50, 1/10, 1/10⟩ true).1.squint_score ∧
      (eyeAnalyze ⟨none, []⟩ ⟨1/50, 1/50, 1/10, 1/10⟩ true).1.squint_score ≤ 1) ∧
    (0 ≤ (grimaceAnalyze ⟨none, []⟩ ⟨1/10, 1/20, 1/20, 0⟩ true).1.grimace_score ∧
      (grimaceAnalyze ⟨none, []⟩ ⟨1/10, 1/20, 1/20, 0⟩ true).1.grimace_score ≤ 1) ∧
    (0 ≤ (jawAnalyze ⟨none, []⟩ ⟨1/10, 1/10, 1/5, 120⟩ true).1.clench_score ∧
      (jawAnalyze ⟨none, []⟩ ⟨1/10, 1/10, 1/5, 120⟩ true).1.clench_score ≤ 1) ∧
    (0 ≤ (nasoAnalyze ⟨none, []⟩ ⟨1/50, 1/50, 150, 150⟩ true).1.strain_score ∧
      (nasoAnalyze ⟨none, []⟩ ⟨1/50, 1/50, 150, 150⟩ true).1.strain_score ≤ 1) :=
  ⟨claim_C2.1 none [] ⟨1/10, 1/10, 90⟩ true (by simp),
   (claim_C2.2.1 none [] ⟨1/50, 1/50, 1/10, 1/10⟩ true (by simp)).1,
   (claim_C2.2.2.1 none [] ⟨1/10, 1/20, 1/20, 0⟩ true (by simp)).1,
   (claim_C2.2.2.2.1 none [] ⟨1/10, 1/10, 1/5, 120⟩ true (by simp)).1,
   (claim_C2.2.2.2.2 none [] ⟨1/50, 1/50, 150, 150⟩ true (by simp)).1⟩

/-! ### Claim C5 -/

/-- **C5.** For every analyzer, calling `analyze` with `use_baseline = true`
before any `set_baseline` (baseline still absent) returns `has_baseline =
false` and exactly the same result — raw score included — as the
non-baseline scoring mode on the same input; no error is raised (the call is
total). -/
theorem claim_C5 :
    (∀ (hist : List ℚ) (m : BrowMeas),
      (browAnalyze ⟨none, hist⟩ m true).1.has_baseline = false ∧
      browAnalyze ⟨none, hist⟩ m true = browAnalyze ⟨none, hist⟩ m false) ∧
    (∀ (hist : List ℚ) (m : EyeMeas),
      (eyeAnalyze ⟨none, hist⟩ m true).1.has_baseline = false ∧
      eyeAnalyze ⟨none, hist⟩ m true = eyeAnalyze ⟨none, hist⟩ m false) ∧
    (∀ (hist : List ℚ) (m : GrimaceMeas),
      (grimaceAnalyze ⟨none, hist⟩ m true).1.has_baseline = false ∧
      grimaceAnalyze ⟨none, hist⟩ m true = grimaceAnalyze ⟨none, hist⟩ m false) ∧
    (∀ (hist : List ℚ) (m : JawMeas),
      (jawAnalyze ⟨none, hist⟩ m true).1.has_baseline = false ∧
      jawAnalyze ⟨none, hist⟩ m true = jawAnalyze ⟨none, hist⟩ m false) ∧
    (∀ (hist : List ℚ) (m : NasoMeas),
      (nasoAnalyze ⟨none, hist⟩ m true).1.has_baseline = false ∧
      nasoAnalyze ⟨none, hist⟩ m true = nasoAnalyze ⟨none, hist⟩ m false) :=
  ⟨fun _ _ => ⟨rfl, rfl⟩, fun _ _ => ⟨rfl, rfl⟩, fun _ _ => ⟨rfl, rfl⟩,
   fun _ _ => ⟨rfl, rfl⟩, fun _ _ => ⟨rfl, rfl⟩⟩

/-! ### Claim C6 -/

/-- **C6 counterexample.** With a baseline set and `use_baseline = false`,
the non-baseline formula is used (the result coincides with the no-baseline
state's result on the same frame), yet `has_baseline` is `true` — the flag
reports whether a baseline is stored, not whether normalization was active,
contradicting the claim that it would read `false` here. -/
theorem claim_C6_counterexample :
    (browAnalyze ⟨some ⟨1, 1, 90⟩, []⟩ ⟨2, 2, 45⟩ false).1.has_baseline = true ∧
    (browAnalyze ⟨some ⟨1, 1, 90⟩, []⟩ ⟨2, 2, 45⟩ false).1.tension_score =
      (browAnalyze ⟨none, []⟩ ⟨2, 2, 45⟩ false).1.tension_score :=
  ⟨rfl, rfl⟩

/-- **C6 (amended).** The `has_baseline` flag reports whether a baseline has
been *set* (`baseline is not None`), independent of `use_baseline`: when a
baseline is set but the caller passes `use_baseline = false`, the
non-baseline formula is used yet the flag is still `true`. -/
theorem claim_C6_amended :
    (∀ (st : BrowState) (m : BrowMeas) (u : Bool),
      (browAnalyze st m u).1.has_baseline = st.baseline.isSome) ∧
    (∀ (st : EyeState) (m : EyeMeas) (u : Bool),
      (eyeAnalyze st m u).1.has_baseline = st.baseline.isSome) ∧
    (∀ (st : GrimaceState) (m : GrimaceMeas) (u : Bool),
      (grimaceAnalyze st m u).1.has_baseline = st.baseline.isSome) ∧
    (∀ (st : JawState) (m : JawMeas) (u : Bool),
      (jawAnalyze st m u).1.has_baseline = st.baseline.isSome) ∧
    (∀ (st : NasoState) (m : NasoMeas) (u : Bool),
      (nasoAnalyze st m u).1.has_baseline = st.baseline.isSome) ∧
    (∀ (hist : List ℚ) (b m : BrowMeas),
      (browAnalyze ⟨some b, hist⟩ m false).1.has_baseline = true ∧
      (browAnalyze ⟨some b, hist⟩ m false).1.tension_score =
        (browAnalyze ⟨none, hist⟩ m false).1.tension_score) :=
  ⟨fun _ _ _ => rfl, fun _ _ _ => rfl, fun _ _ _ => rfl, fun _ _ _ => rfl,
   fun _ _ _ => rfl, fun _ _ _ => ⟨rfl, rfl⟩⟩

/-! ### Claim C7 -/

/-- **C7.** For every analyzer and frame with nonzero baseline measurements,
`set_baseline` followed immediately by `analyze` on the same frame yields a
raw score of exactly 0: every relative change `|current − baseline| /
baseline` vanishes before sensitivity scaling and clamping. -/
theorem claim_C7 :
    (∀ (st : BrowState) (m : BrowMeas),
      m.distance_left ≠ 0 → m.distance_right ≠ 0 → m.angle ≠ 0 →
      (browAnalyze (browSetBaseline st m) m true).1.tension_score = 0) ∧
    (∀ (st : EyeState) (m : EyeMeas),
      m.left_aperture ≠ 0 → m.right_aperture ≠ 0 →
      m.left_width ≠ 0 → m.right_width ≠ 0 →
      (eyeAnalyze (eyeSetBaseline st m) m true).1.squint_score = 0) ∧
    (∀ (st : GrimaceState) (m : GrimaceMeas),
      m.corner_distance ≠ 0 → m.vertical_distance ≠ 0 → m.lip_distance ≠ 0 →
      (grimaceAnalyze (grimaceSetBaseline st m) m true).1.grimace_score = 0) ∧
    (∀ (st : JawState) (m : JawMeas),
      m.left_distance ≠ 0 → m.right_distance ≠ 0 →
      m.jaw_width ≠ 0 → m.jaw_angle ≠ 0 →
      (jawAnalyze (jawSetBaseline st m) m true).1.clench_score = 0) ∧
    (∀ (st : NasoState) (m : NasoMeas),
      m.left_depth ≠ 0 → m.right_depth ≠ 0 →
      m.left_angle ≠ 0 → m.right_angle ≠ 0 →
      (nasoAnalyze (nasoSetBaseline st m) m true).1.strain_score = 0) := by
  refine ⟨?_, ?_, ?_, ?_, ?_⟩
  · intro st m h1 h2 h3
    rw [browAnalyze_score]
    have ht : browTension (browSetBaseline st m).baseline true m = 0 := by
      show (|m.distance_left - m.distance_left| / m.distance_left +
        |m.distance_right - m.distance_right| / m.distance_right +
        |m.angle - m.angle| / m.angle) / 3 = 0
      simp
    rw [ht, zero_mul, clipQ_zero]
  · intro st m h1 h2 h3 h4
    rw [eyeAnalyze_score]
    have ht : eyeSquint (eyeSetBaseline st m).baseline true m = 0 := by
      show ((1 - m.left_aperture / m.left_aperture +
          (1 - m.right_aperture / m.right_aperture)) * 0.7 +
        (|m.left_width - m.left_width| / m.left_width +
          |m.right_width - m.right_width| / m.right_width) * 0.3) / 2 = 0
      simp [div_self h1, div_self h2]
    rw [ht, zero_mul, clipQ_zero]
  · intro st m h1 h2 h3
    rw [grimaceAnalyze_score]
    have ht : grimaceScoreOf (grimaceSetBaseline st m).baseline true m = 0 := by
      show |m.corner_distance - m.corner_distance| / m.corner_distance * 0.4 +
        |m.vertical_distance - m.vertical_distance| / m.vertical_distance * 0.3 +
        |m.lip_distance - m.lip_distance| / m.lip_distance * 0.3 = 0
      simp
    rw [ht, zero_mul, clipQ_zero]
  · intro st m h1 h2 h3 h4
    rw [jawAnalyze_score]
    have ht : jawClench (jawSetBaseline st m).baseline true m = 0 := by
      show |m.left_distance - m.left_distance| / m.left_distance * 0.25 +
        |m.right_distance - m.right_distance| / m.right_distance * 0.25 +
        |m.jaw_width - m.jaw_width| / m.jaw_width * 0.25 +
        |m.jaw_angle - m.jaw_angle| / m.jaw_angle * 0.25 = 0
      simp
    rw [ht, zero_mul, clipQ_zero]
  · intro st m h1 h2 h3 h4
    rw [nasoAnalyze_score]
    have ht : nasoStrain (nasoSetBaseline st m).baseline true m = 0 := by
      show ((|m.left_depth - m.left_depth| / m.left_depth +
          |m.right_depth - m.right_depth| / m.right_depth) * 0.6 +
        (|m.left_angle - m.left_angle| / m.left_angle +
          |m.right_angle - m.right_angle| / m.right_angle) * 0.4) / 2 = 0
      simp
    rw [ht, zero_mul, clipQ_zero]

/-- Witness for C7: a concrete nonzero frame, calibrated then re-analyzed,
for all five analyzers. -/
theorem claim_C7_witness :
    (browAnalyze (browSetBaseline ⟨none, []⟩ ⟨1/10, 1/10, 90⟩) ⟨1/10, 1/10, 90⟩
      true).1.tension_score = 0 ∧
    (eyeAnalyze (eyeSetBaseline ⟨none, []⟩ ⟨1/50, 1/50, 1/10, 1/10⟩)
      ⟨1/50, 1/50, 1/10, 1/10⟩ true).1.squint_score = 0 ∧
    (grimaceAnalyze (grimaceSetBaseline ⟨none, []⟩ ⟨1/10, 1/20, 1/20, 0⟩)
      ⟨1/10, 1/20, 1/20, 0⟩ true).1.grimace_score = 0 ∧
    (jawAnalyze (jawSetBaseline ⟨none, []⟩ ⟨1/10, 1/10, 1/5, 120⟩)
      ⟨1/10, 1/10, 1/5, 120⟩ true).1.clench_score = 0 ∧
    (nasoAnalyze (nasoSetBaseline ⟨none, []⟩ ⟨1/50, 1/50, 150, 150⟩)
      ⟨1/50, 1/50, 150, 150⟩ true).1.strain_score = 0 :=
  ⟨claim_C7.1 ⟨none, []⟩ ⟨1/10, 1/10, 90⟩ (by norm_num) (by norm_num) (by norm_num),
   claim_C7.2.1 ⟨none, []⟩ ⟨1/50, 1/50, 1/10, 1/10⟩
     (by norm_num) (by norm_num) (by norm_num) (by norm_num),
   claim_C7.2.2.1 ⟨none, []⟩ ⟨1/10, 1/20, 1/20, 0⟩
     (by norm_num) (by norm_num) (by norm_num),
   claim_C7.2.2.2.1 ⟨none, []⟩ ⟨1/10, 1/10, 1/5, 120⟩
     (by norm_num) (by norm_num) (by norm_num) (by norm_num),
   claim_C7.2.2.2.2 ⟨none, []⟩ ⟨1/50, 1/50, 150, 150⟩
     (by norm_num) (by norm_num) (by norm_num) (by norm_num)⟩

/-! ### Claim C8 -/

lemma map_range_sum (f : ℕ → ℚ) (n : ℕ) :
    ((List.range n).map f).sum = ∑ i ∈ Finset.range n, f i := by
  induction n with
  | zero => simp
  | succ n ih =>
      rw [List.range_succ, List.map_append, List.sum_append, Finset.sum_range_succ, ih]
      simp

lemma zip_map_range_sum (f : ℕ → ℚ) (xs : List ℚ) :
    (List.zipWith (fun w x => w * x) ((List.range xs.length).map f) xs).sum
      = ∑ i ∈ Finset.range xs.length, f i * xs.getD i 0 := by
  induction xs generalizing f with
  | nil => simp
  | cons x t ih =>
      have h1 : (List.range (x :: t).length).map f
          = f 0 :: (List.range t.length).map (fun i => f (i + 1)) := by
        rw [List.length_cons, List.range_succ_eq_map, List.map_cons, List.map_map]
        rfl
      rw [h1, List.zipWith_cons_cons, List.sum_cons, List.length_cons,
        Finset.sum_range_succ', ih (fun i => f (i + 1))]
      simp only [List.getD_cons_succ, List.getD_cons_zero]
      ring

lemma linspace01_eq_specWeight (n : ℕ) :
    linspace01 n = (List.range n).map (specWeight n) := by
  unfold linspace01
  apply List.map_congr_left
  intro i _
  unfold specWeight
  rw [div_div, mul_one_div]

/-- **C8.** The smoothing step of every `analyze` call: when the post-push
history has length greater than 1 the smoothed score is the weighted average
`Σ wᵢhᵢ / Σ wᵢ` with weights `wᵢ = 1/2 + i/(2(n−1))`, which start at 1/2 on
the oldest retained sample, end at 1 on the newest, and increase linearly;
when the post-push history has length exactly 1 the smoothed score equals
the raw score of that call.  Each analyzer's returned smoothed score is this
function of its post-push history and raw score. -/
theorem claim_C8 :
    (∀ (h : List ℚ) (r : ℚ),
      (h.length = 1 → smoothedOf h r = r) ∧
      (1 < h.length →
        smoothedOf h r =
          (∑ i ∈ Finset.range h.length, specWeight h.length i * h.getD i 0) /
            (∑ i ∈ Finset.range h.length, specWeight h.length i) ∧
        specWeight h.length 0 = 1/2 ∧
        specWeight h.length (h.length - 1) = 1 ∧
        (∀ i : ℕ, i + 1 < h.length →
          specWeight h.length i < specWeight h.length (i + 1)))) ∧
    (∀ (st : BrowState) (m : BrowMeas) (u : Bool),
      (browAnalyze st m u).2.history =
        pushHistory st.history (browAnalyze st m u).1.tension_score ∧
      (browAnalyze st m u).1.smoothed_score =
        smoothedOf (browAnalyze st m u).2.history
          (browAnalyze st m u).1.tension_score) ∧
    (∀ (st : EyeState) (m : EyeMeas) (u : Bool),
      (eyeAnalyze st m u).2.history =
        pushHistory st.history (eyeAnalyze st m u).1.squint_score ∧
      (eyeAnalyze st m u).1.smoothed_score =
        smoothedOf (eyeAnalyze st m u).2.history
          (eyeAnalyze st m u).1.squint_score) ∧
    (∀ (st : GrimaceState) (m : GrimaceMeas) (u : Bool),
      (grimaceAnalyze st m u).2.history =
        pushHistory st.history (grimaceAnalyze st m u).1.grimace_score ∧
      (grimaceAnalyze st m u).1.smoothed_score =
        smoothedOf (grimaceAnalyze st m u).2.history
          (grimaceAnalyze st m u).1.grimace_score) ∧
    (∀ (st : JawState) (m : JawMeas) (u : Bool),
      (jawAnalyze st m u).2.history =
        pushHistory st.history (jawAnalyze st m u).1.clench_score ∧
      (jawAnalyze st m u).1.smoothed_score =
        smoothedOf (jawAnalyze st m u).2.history
          (jawAnalyze st m u).1.clench_score) ∧
    (∀ (st : NasoState) (m : NasoMeas) (u : Bool),
      (nasoAnalyze st m u).2.history =
        pushHistory st.history (nasoAnalyze st m u).1.strain_score ∧
      (nasoAnalyze st m u).1.smoothed_score =
        smoothedOf (nasoAnalyze st m u).2.history
          (nasoAnalyze st m u).1.strain_score) := by
  refine ⟨?_, fun _ _ _ => ⟨rfl, rfl⟩, fun _ _ _ => ⟨rfl, rfl⟩, fun _ _ _ => ⟨rfl, rfl⟩,
    fun _ _ _ => ⟨rfl, rfl⟩, fun _ _ _ => ⟨rfl, rfl⟩⟩
  intro h r
  constructor
  · intro h1
    simp [smoothedOf, h1]
  · intro hlen
    have h2 : (2:ℚ) ≤ (h.length : ℚ) := by exact_mod_cast hlen
    have hd : (0:ℚ) < 2 * ((h.length : ℚ) - 1) := by linarith
    refine ⟨?_, by simp [specWeight], ?_, ?_⟩
    · unfold smoothedOf npAverage
      rw [if_pos hlen, linspace01_eq_specWeight, zip_map_range_sum, map_range_sum]
    · unfold specWeight
      rw [Nat.cast_sub (by omega : 1 ≤ h.length), Nat.cast_one]
      have hx : ((h.length : ℚ) - 1) ≠ 0 := by linarith
      field_simp
      ring
    · intro i hi
      unfold specWeight
      push_cast
      apply add_lt_add_left
      gcongr
      linarith

/-- Witness for C8 at concrete histories of lengths 1 and 2. -/
theorem claim_C8_witness :
    smoothedOf [(3:ℚ)/4] (3/4) = 3/4 ∧
    smoothedOf [(1:ℚ)/2, 1] 1 =
      (∑ i ∈ Finset.range 2, specWeight 2 i * ([(1:ℚ)/2, 1].getD i 0)) /
        (∑ i ∈ Finset.range 2, specWeight 2 i) :=
  ⟨(claim_C8.1 [(3:ℚ)/4] (3/4)).1 (by simp),
   ((claim_C8.1 [(1:ℚ)/2, 1] 1).2 (by simp)).1⟩

/-! ### Claim C9 -/

lemma pushHistory_length {h : List ℚ} (x : ℚ) (hcap : h.length ≤ 5) :
    (pushHistory h x).length ≤ 5 := by
  simp only [pushHistory, historySize]
  split
  next hc => simp at hc ⊢; omega
  next hc => simp at hc ⊢; omega

lemma pushHistory_full {h : List ℚ} (x : ℚ) (hlen : h.length = 5) :
    pushHistory h x = h.tail ++ [x] := by
  cases h with
  | nil => simp at hlen
  | cons a t =>
      simp only [pushHistory, historySize]
      rw [if_pos (by simp at hlen ⊢; omega)]
      simp

lemma pushHistory_eq_drop {h : List ℚ} (x : ℚ) (hcap : h.length ≤ 5) :
    pushHistory h x = (h ++ [x]).drop (h.length + 1 - 5) := by
  simp only [pushHistory, historySize]
  split
  next hc =>
      simp only [List.length_append, List.length_singleton] at hc
      have h5 : h.length = 5 := by omega
      rw [← List.drop_one]
      congr 1
      omega
  next hc =>
      simp only [List.length_append, List.length_singleton] at hc
      have h0 : h.length + 1 - 5 = 0 := by omega
      rw [h0, List.drop_zero]

lemma foldl_pushHistory (xs : List ℚ) : ∀ acc : List ℚ, acc.length ≤ 5 →
    xs.foldl pushHistory acc = (acc ++ xs).drop ((acc ++ xs).length - 5) := by
  induction xs with
  | nil =>
      intro acc hacc
      simp [Nat.sub_eq_zero_of_le hacc]
  | cons x xs ih =>
      intro acc hacc
      rw [List.foldl_cons, ih (pushHistory acc x) (pushHistory_length x hacc),
        pushHistory_eq_drop x hacc]
      have hk : acc.length + 1 - 5 ≤ (acc ++ [x]).length := by simp; omega
      rw [← List.drop_append_of_le_length hk, List.drop_drop,
        show acc ++ x :: xs = (acc ++ [x]) ++ xs by simp]
      congr 1
      simp only [List.length_drop, List.length_append, List.length_singleton,
        List.length_cons]
      omega

/-- **C9.** The history buffer never exceeds capacity 5: each `analyze` call
pushes the new raw score; when the buffer already holds 5 entries the oldest
is evicted (FIFO), so the buffer after any sequence of pushes is exactly the
most recent (at most 5) raw scores in arrival order, and every analyzer's
post-`analyze` history is this push of its prior history. -/
theorem claim_C9 :
    (∀ (h : List ℚ) (x : ℚ), h.length ≤ 5 → (pushHistory h x).length ≤ 5) ∧
    (∀ (h : List ℚ) (x : ℚ), h.length = 5 → pushHistory h x = h.tail ++ [x]) ∧
    (∀ xs : List ℚ, xs.foldl pushHistory [] = xs.drop (xs.length - 5)) ∧
    (∀ (st : BrowState) (m : BrowMeas) (u : Bool),
      (browAnalyze st m u).2.history =
        pushHistory st.history (browAnalyze st m u).1.tension_score ∧
      (st.history.length ≤ 5 → (browAnalyze st m u).2.history.length ≤ 5)) ∧
    (∀ (st : EyeState) (m : EyeMeas) (u : Bool),
      st.history.length ≤ 5 → (eyeAnalyze st m u).2.history.length ≤ 5) ∧
    (∀ (st : GrimaceState) (m : GrimaceMeas) (u : Bool),
      st.history.length ≤ 5 → (grimaceAnalyze st m u).2.history.length ≤ 5) ∧
    (∀ (st : JawState) (m : JawMeas) (u : Bool),
      st.history.length ≤ 5 → (jawAnalyze st m u).2.history.length ≤ 5) ∧
    (∀ (st : NasoState) (m : NasoMeas) (u : Bool),
      st.history.length ≤ 5 → (nasoAnalyze st m u).2.history.length ≤ 5) := by
  refine ⟨fun h x hc => pushHistory_length x hc, fun h x hl => pushHistory_full x hl,
    ?_, fun st m u => ⟨rfl, fun hc => pushHistory_length _ hc⟩,
    fun st m u hc => pushHistory_length _ hc, fun st m u hc => pushHistory_length _ hc,
    fun st m u hc => pushHistory_length _ hc, fun st m u hc => pushHistory_length _ hc⟩
  intro xs
  have := foldl_pushHistory xs [] (by simp)
  simpa using this

/-- Witness for C9: a full 5-entry history, pushed once, stays at 5 entries
and evicts exactly the oldest sample. -/
theorem claim_C9_witness :
    (pushHistory [0, 1/5, 2/5, 3/5, (4:ℚ)/5] 1).length ≤ 5 ∧
    pushHistory [0, 1/5, 2/5, 3/5, (4:ℚ)/5] 1 =
      [0, 1/5, 2/5, 3/5, (4:ℚ)/5].tail ++ [1] :=
  ⟨claim_C9.1 [0, 1/5, 2/5, 3/5, (4:ℚ)/5] 1 (by simp),
   claim_C9.2.1 [0, 1/5, 2/5, 3/5, (4:ℚ)/5] 1 (by simp)⟩

/-! ### Claim C10 -/

lemma bind_fun_none {α β : Type} (o : Option α) :
    (o.bind fun _ => (none : Option β)) = none := by cases o <;> rfl

lemma browAnalyzeFetch_isSome (lms : List Pt) :
    (browAnalyzeFetch lms).isSome = true ↔ 336 < lms.length := by
  constructor
  · intro hs
    by_contra hlt
    push_neg at hlt
    have h336 : lms[336]? = none := List.getElem?_eq_none (by omega)
    simp [browAnalyzeFetch, h336, bind_fun_none] at hs
  · intro hlen
    have h70 := List.getElem?_eq_getElem (show 70 < lms.length by omega)
    have h107 := List.getElem?_eq_getElem (show 107 < lms.length by omega)
    have h336 := List.getElem?_eq_getElem (show 336 < lms.length by omega)
    have h300 := List.getElem?_eq_getElem (show 300 < lms.length by omega)
    have h168 := List.getElem?_eq_getElem (show 168 < lms.length by omega)
    simp [browAnalyzeFetch, h70, h107, h336, h300, h168]

lemma jawSetBaselineFetch_isSome (lms : List Pt) :
    (jawSetBaselineFetch lms).isSome = true ↔ 454 < lms.length := by
  constructor
  · intro hs
    by_contra hlt
    push_neg at hlt
    have h454 : lms[454]? = none := List.getElem?_eq_none (by omega)
    simp [jawSetBaselineFetch, h454, bind_fun_none] at hs
  · intro hlen
    have h234 := List.getElem?_eq_getElem (show 234 < lms.length by omega)
    have h93 := List.getElem?_eq_getElem (show 93 < lms.length by omega)
    have h454 := List.getElem?_eq_getElem (show 454 < lms.length by omega)
    have h323 := List.getElem?_eq_getElem (show 323 < lms.length by omega)
    have h152 := List.getElem?_eq_getElem (show 152 < lms.length by omega)
    have h172 := List.getElem?_eq_getElem (show 172 < lms.length by omega)
    have h397 := List.getElem?_eq_getElem (show 397 < lms.length by omega)
    simp [jawSetBaselineFetch, h234, h93, h454, h323, h152, h172, h397]

/-- **C10 counterexample.** A landmark array of length 460 ≠ 468 whose
referenced indices are all in range: both the `BrowAnalyzer.analyze` fetch
and the `JawAnalyzer.set_baseline` fetch succeed (no error is raised), so a
length different from 468 does not by itself make the calls fail. -/
theorem claim_C10_counterexample :
    (List.replicate 460 (⟨0, 0, 0⟩ : Pt)).length = 460 ∧
    (List.replicate 460 (⟨0, 0, 0⟩ : Pt)).length ≠ 468 ∧
    (browAnalyzeFetch (List.replicate 460 ⟨0, 0, 0⟩)).isSome = true ∧
    (jawSetBaselineFetch (List.replicate 460 ⟨0, 0, 0⟩)).isSome = true :=
  ⟨List.length_replicate 460 _,
   by rw [List.length_replicate]; norm_num,
   (browAnalyzeFetch_isSome _).mpr (by rw [List.length_replicate]; norm_num),
   (jawSetBaselineFetch_isSome _).mpr (by rw [List.length_replicate]; norm_num)⟩

/-- **C10 (amended).** There is no array-length check against N = 468: an
`analyze`/`set_baseline` call fails (numpy `IndexError`, modelled as `none`)
exactly when some referenced landmark index is out of range — for
`BrowAnalyzer.analyze` exactly when the length is at most 336 (its largest
index), for `JawAnalyzer.set_baseline` exactly when the length is at most
454; any longer array, of length 468 or not, is accepted. -/
theorem claim_C10_amended :
    (∀ lms : List Pt, (browAnalyzeFetch lms).isSome = true ↔ 336 < lms.length) ∧
    (∀ lms : List Pt, (jawSetBaselineFetch lms).isSome = true ↔ 454 < lms.length) :=
  ⟨browAnalyzeFetch_isSome, jawSetBaselineFetch_isSome⟩

/-! ### Claim C3 -/

/-- **C3 counterexample.** The three-point angle with the vertex coinciding
with the first endpoint: the unguarded division `0 / 0` yields NaN (`none`),
not the fallback value 0.  (`id` is the exact square root on the two values
reached, `normSq = 0` and `normSq = 1`; the arc-cosine is never reached.) -/
theorem claim_C3_counterexample :
    calculate_angle id id ⟨0, 0, 0⟩ ⟨0, 0, 0⟩ ⟨1, 0, 0⟩ = none ∧
    calculate_angle id id ⟨0, 0, 0⟩ ⟨0, 0, 0⟩ ⟨1, 0, 0⟩ ≠ some 0 := by
  constructor
  · norm_num [calculate_angle, Pt.sub, Pt.dot, normSq]
  · norm_num [calculate_angle, Pt.sub, Pt.dot, normSq]
    exact fun hc => Option.noConfusion hc

/-- **C3 (amended).** The two degenerate-geometry sites behave differently:
the nasolabial fold-depth projection is guarded and returns the defined
fallback 0 when the nose and mouth landmarks coincide, while the three-point
angle computation is unguarded — a vertex coinciding with either endpoint
produces NaN (modelled `none`), not 0; neither site raises a fault (both are
total). -/
theorem claim_C3 :
    (∀ sqrtA acosDegA : ℚ → ℚ, sqrtA 0 = 0 → ∀ p q : Pt,
      calculate_angle sqrtA acosDegA p p q = none ∧
      calculate_angle sqrtA acosDegA q p p = none) ∧
    (∀ sqrtA : ℚ → ℚ, sqrtA 0 = 0 → ∀ fold nose : Pt,
      calculate_fold_depth sqrtA fold nose nose = 0) := by
  constructor
  · intro sqrtA acosDegA h0 p q
    constructor
    · have hv : normSq (Pt.sub p p) = 0 := by simp [Pt.sub, Pt.dot, normSq]
      simp [calculate_angle, hv, h0]
    · have hv : normSq (Pt.sub p p) = 0 := by simp [Pt.sub, Pt.dot, normSq]
      simp [calculate_angle, hv, h0]
  · intro sqrtA h0 fold nose
    have hv : normSq (Pt.sub nose nose) = 0 := by simp [Pt.sub, Pt.dot, normSq]
    simp [calculate_fold_depth, hv, h0]

/-- Witness for C3 (amended) at concrete points, with `id` as the square
root (exact on the values reached). -/
theorem claim_C3_witness :
    calculate_angle id id ⟨1, 2, 3⟩ ⟨1, 2, 3⟩ ⟨4, 5, 6⟩ = none ∧
    calculate_fold_depth id ⟨1, 0, 0⟩ ⟨2, 3, 4⟩ ⟨2, 3, 4⟩ = 0 :=
  ⟨(claim_C3.1 id id rfl ⟨1, 2, 3⟩ ⟨4, 5, 6⟩).1,
   claim_C3.2 id rfl ⟨1, 0, 0⟩ ⟨2, 3, 4⟩⟩

/-! ### Claim C4 -/

lemma relChange_one_div {D : ℚ} (hD2 : 2 ≤ D) : relChange 1 (1/D) = D - 1 := by
  have hD : 0 < D := by linarith
  have hb1 : 1/D < 1 := by rw [div_lt_one hD]; linarith
  unfold relChange
  rw [abs_of_pos (by linarith)]
  field_simp

/-- **C4 counterexample.** There is no minimum-epsilon floor on the baseline
denominator: the relative-change value `|current − baseline| / baseline` at
`current = 1`, `baseline = 10⁻⁶` is 999999, and no bound `B` covers all
positive baselines — the claimed guarded, bounded behavior does not hold. -/
theorem claim_C4_counterexample :
    relChange 1 (1/1000000) = 999999 ∧
    ¬ ∃ B : ℚ, ∀ b : ℚ, 0 < b → relChange 1 b ≤ B := by
  constructor
  · rw [relChange_one_div (by norm_num)]
    norm_num
  · rintro ⟨B, hB⟩
    have habs : (0:ℚ) ≤ |B| := abs_nonneg B
    have hb : (0:ℚ) < 1/(|B| + 2) := by positivity
    have hval := relChange_one_div (show (2:ℚ) ≤ |B| + 2 by linarith)
    have hle := hB _ hb
    rw [hval] at hle
    have := le_abs_self B
    linarith

/-- **C4 (amended).** The baseline-mode divisions divide by the raw baseline
with no epsilon floor: the brow baseline branch is exactly the mean of three
`relChange` terms, `relChange` is unbounded as the baseline approaches 0
(for every bound `B` some positive baseline exceeds it), and only the later
`np.clip (· * 3.5) 0 1` keeps the returned raw score inside [0,1]. -/
theorem claim_C4 :
    (∀ b m : BrowMeas, browTension (some b) true m =
      (relChange m.distance_left b.distance_left +
        relChange m.distance_right b.distance_right +
        relChange m.angle b.angle) / 3) ∧
    (∀ B : ℚ, ∃ bl : ℚ, 0 < bl ∧ B < relChange 1 bl) ∧
    (∀ (st : BrowState) (m : BrowMeas) (u : Bool),
      0 ≤ (browAnalyze st m u).1.tension_score ∧
      (browAnalyze st m u).1.tension_score ≤ 1) := by
  refine ⟨fun b m => rfl, ?_, ?_⟩
  · intro B
    have habs : (0:ℚ) ≤ |B| := abs_nonneg B
    refine ⟨1/(|B| + 2), by positivity, ?_⟩
    rw [relChange_one_div (by linarith)]
    have := le_abs_self B
    linarith
  · intro st m u
    rw [browAnalyze_score]
    exact ⟨clipQ01_nonneg _, clipQ01_le_one _⟩

end PainDetect
